import Mathlib

/-
Verification of the `access_ca_certificate` resource adapter
(`internal/provider/resource_cloudflare_access_ca_certificate.go`).

The Go lifecycle hooks (Create / Read / Update / Delete / Import) are embedded
as pure Lean functions.  Mutable `*schema.ResourceData` state becomes an
explicit `ResourceData` record that every function takes and returns; the
remote `cloudflare.API` client becomes a record of pure functions supplied by
the caller; `diag.Diagnostics` becomes a list of diagnostics; and every remote
call, as well as every entry into the Read hook, is logged into an event trace
so that call-counting properties ("exactly one Read", "no remote call") can be
stated.
-/

set_option autoImplicit false

deriving instance DecidableEq for Except

namespace AccessCACert

/-- Severity of a diagnostic, mirroring `diag.Severity` (only the error level
is produced by this file's code; warning exists in the SDK). -/
inductive DiagSeverity where
  | error
  | warning
  deriving DecidableEq

/-- One entry of `diag.Diagnostics`: a severity and the message text. -/
structure Diagnostic where
  severity : DiagSeverity
  summary : String
  deriving DecidableEq

/-- `diag.Diagnostics`: a list of diagnostics; `[]` models the `nil` return. -/
abbrev Diagnostics := List Diagnostic

/-- `diag.FromErr(err)`: a single fatal diagnostic carrying the error text. -/
def diagFromErr (msg : String) : Diagnostics :=
  [{ severity := DiagSeverity.error, summary := msg }]

/-- The remote entity `cloudflare.AccessCACertificate`. -/
structure AccessCACertificate where
  ID : String
  Aud : String
  PublicKey : String
  deriving DecidableEq

/-- Errors returned by the remote client.  `notFound` models
`*cloudflare.NotFoundError` (the kind `errors.As` tests for in Read); `other`
is any other error. -/
inductive ApiError where
  | notFound (msg : String)
  | other (msg : String)
  deriving DecidableEq

/-- `err.Error()`: the error's message text. -/
def ApiError.message : ApiError → String
  | ApiError.notFound m => m
  | ApiError.other m => m

/-- The remote client (`*cloudflare.API`), restricted to the six methods this
resource file calls.  Each method is a pure function from
(container id, application id) to a result. -/
structure API where
  CreateAccessCACertificate : String → String → Except ApiError AccessCACert.AccessCACertificate
  CreateZoneLevelAccessCACertificate : String → String → Except ApiError AccessCACert.AccessCACertificate
  AccessCACertificate : String → String → Except ApiError AccessCACert.AccessCACertificate
  ZoneLevelAccessCACertificate : String → String → Except ApiError AccessCACert.AccessCACertificate
  DeleteAccessCACertificate : String → String → Option ApiError
  DeleteZoneLevelAccessCACertificate : String → String → Option ApiError

/-- The local state held in `*schema.ResourceData`: the resource id
(`d.Id()`), plus the schema fields this file reads or writes.  Terraform
string fields default to `""` when unset. -/
structure ResourceData where
  id : String
  application_id : String
  account_id : String
  zone_id : String
  aud : String
  public_key : String
  deriving DecidableEq

/-- Observable events: one per remote client call, plus `readCall d`, logged
whenever the Read hook is entered with local state `d`. -/
inductive Event where
  | callCreateAccount (container appID : String)
  | callCreateZone (container appID : String)
  | callGetAccount (container appID : String)
  | callGetZone (container appID : String)
  | callDeleteAccount (container appID : String)
  | callDeleteZone (container appID : String)
  | readCall (d : ResourceData)
  deriving DecidableEq

/-- Number of `readCall` events in a trace: how often the Read hook ran. -/
def countReadCalls : List Event → Nat
  | [] => 0
  | Event.readCall _ :: es => countReadCalls es + 1
  | _ :: es => countReadCalls es

/-- The local state at the first entry into the Read hook, if any. -/
def firstReadState? : List Event → Option ResourceData
  | [] => none
  | Event.readCall d :: _ => some d
  | _ :: es => firstReadState? es

/-- Modelled from the spec: the constant `AccountType` of the provider's
`AccessIdentifierType` (a string type), not under `src/`; the spec fixes the
accepted scope kinds to exactly `"account"` and `"zone"`, case-sensitive. -/
def AccountType : String := "account"

/-- Modelled from the spec: the constant `ZoneType`, see `AccountType`. -/
def ZoneType : String := "zone"

/-- The provider's `AccessIdentifier`: scope kind (`AccountType`/`ZoneType`)
plus the container id value.  The Go field `Type` is named `idType` here
because `Type` is reserved in Lean. -/
structure AccessIdentifier where
  idType : String
  Value : String
  deriving DecidableEq

/-- Modelled from the spec: the scope resolver `initIdentifier` is not under
`src/`; the spec says it "yields {Account|Zone} × containerValue, or fails if
neither/both scope fields are set", reading the `account_id` / `zone_id`
config fields. -/
def initIdentifier (d : ResourceData) : Except String AccessIdentifier :=
  if d.account_id ≠ "" then
    if d.zone_id ≠ "" then
      Except.error "only one of account_id or zone_id may be set"
    else
      Except.ok { idType := AccountType, Value := d.account_id }
  else if d.zone_id ≠ "" then
    Except.ok { idType := ZoneType, Value := d.zone_id }
  else
    Except.error "one of account_id or zone_id must be set"

/-- The scope dispatch of the create call (`if identifier.Type == AccountType`). -/
def clientCreate (client : API) (identifier : AccessIdentifier) (appID : String) :
    Except ApiError AccessCACertificate :=
  if identifier.idType = AccountType then
    client.CreateAccessCACertificate identifier.Value appID
  else
    client.CreateZoneLevelAccessCACertificate identifier.Value appID

/-- The scope dispatch of the get call used by Read. -/
def clientGet (client : API) (identifier : AccessIdentifier) (appID : String) :
    Except ApiError AccessCACertificate :=
  if identifier.idType = AccountType then
    client.AccessCACertificate identifier.Value appID
  else
    client.ZoneLevelAccessCACertificate identifier.Value appID

/-- The scope dispatch of the delete call. -/
def clientDelete (client : API) (identifier : AccessIdentifier) (appID : String) :
    Option ApiError :=
  if identifier.idType = AccountType then
    client.DeleteAccessCACertificate identifier.Value appID
  else
    client.DeleteZoneLevelAccessCACertificate identifier.Value appID

/-- Trace event for the create call chosen by `clientCreate`. -/
def createEvent (identifier : AccessIdentifier) (appID : String) : Event :=
  if identifier.idType = AccountType then
    Event.callCreateAccount identifier.Value appID
  else
    Event.callCreateZone identifier.Value appID

/-- Trace event for the get call chosen by `clientGet`. -/
def getEvent (identifier : AccessIdentifier) (appID : String) : Event :=
  if identifier.idType = AccountType then
    Event.callGetAccount identifier.Value appID
  else
    Event.callGetZone identifier.Value appID

/-- Trace event for the delete call chosen by `clientDelete`. -/
def deleteEvent (identifier : AccessIdentifier) (appID : String) : Event :=
  if identifier.idType = AccountType then
    Event.callDeleteAccount identifier.Value appID
  else
    Event.callDeleteZone identifier.Value appID

/-- The wrapped create error:
`fmt.Errorf("error creating Access CA Certificate for %s %q: %w", identifier.Type, identifier.Value, err)`. -/
def createErrMsg (idType value errText : String) : String :=
  "error creating Access CA Certificate for " ++ idType ++ " \"" ++ value ++ "\": " ++ errText

/-- The wrapped read error:
`fmt.Errorf("error finding Access CA Certificate %q: %w", d.Id(), err)`. -/
def readErrMsg (id errText : String) : String :=
  "error finding Access CA Certificate \"" ++ id ++ "\": " ++ errText

/-- The Import format error, naming both accepted forms. -/
def importFormatErrMsg (id : String) : String :=
  "invalid id (\"" ++ id ++ "\") specified, should be in format \"account/accountID/accessCACertificateID\" or \"zone/zoneID/accessCACertificateID\""

/-- The fixed error Import returns when the triggered Read reports diagnostics:
`errors.New("failed to read Access CA Certificate state")`. -/
def importReadFailMsg : String := "failed to read Access CA Certificate state"

/-- Splits off everything before the first occurrence of `sep`, returning
`(before, after)`, or `none` when `sep` does not occur. -/
def breakAt (sep : Char) : List Char → Option (List Char × List Char)
  | [] => none
  | c :: cs =>
    if c = sep then some ([], cs)
    else
      match breakAt sep cs with
      | none => none
      | some pq => some (c :: pq.1, pq.2)

/-- Core of Go's `strings.SplitN` for a single-character separator: at most
`n` substrings; the last substring is the unsplit remainder. -/
def splitNOn (sep : Char) : Nat → List Char → List (List Char)
  | 0, _ => []
  | 1, cs => [cs]
  | n + 2, cs =>
    match breakAt sep cs with
    | none => [cs]
    | some pq => pq.1 :: splitNOn sep (n + 1) pq.2

/-- Go's `strings.SplitN(s, sep, n)` for a single-character separator. -/
def stringsSplitN (s : String) (sep : Char) (n : Nat) : List String :=
  (splitNOn sep n s.data).map List.asString

/-- The unbounded split (Go's `strings.Split`): `SplitN` with enough fuel to
consume every separator.  Used to state the spec's phrase "splits into exactly
three non-empty segments on `/`", which reads as the full split, not the
3-capped `SplitN` the code performs. -/
def stringSplitFull (s : String) (sep : Char) : List String :=
  (splitNOn sep (s.data.length + 1) s.data).map List.asString

/-- The spec sentence's validity predicate, written from the spec's words:
the id splits (full split) into exactly three non-empty segments and the
first segment is `"account"` or `"zone"`. -/
def specValidImportId (s : String) : Bool :=
  let parts := stringSplitFull s '/'
  parts.length == 3 && parts.all (fun seg => seg != "") &&
    (parts.headI == "account" || parts.headI == "zone")

/-- The dynamic-key write `d.Set(fmt.Sprintf("%s_id", identifierType), v)`:
only the two schema keys that can arise are modelled. -/
def setStringField (name value : String) (d : ResourceData) : ResourceData :=
  if name = "account_id" then { d with account_id := value }
  else if name = "zone_id" then { d with zone_id := value }
  else d

/-- The validation Import actually performs: `strings.SplitN(id, "/", 3)`
yields three parts and the first part is `AccountType` or `ZoneType`. -/
def validImportId (s : String) : Bool :=
  match stringsSplitN s '/' 3 with
  | [t, _, _] => t == AccountType || t == ZoneType
  | _ => false

/-- Body of `resourceCloudflareAccessCACertificateRead` (the part after the
`readCall` event is logged): resolve scope, dispatch the get, then either
clear the id (not found), wrap the error, or overwrite `aud`/`public_key`. -/
def readCore (client : API) (d : ResourceData) :
    ResourceData × Diagnostics × List Event :=
  match initIdentifier d with
  | Except.error e => (d, diagFromErr e, [])
  | Except.ok identifier =>
    match clientGet client identifier d.application_id with
    | Except.error (ApiError.notFound _) =>
      ({ d with id := "" }, [], [getEvent identifier d.application_id])
    | Except.error (ApiError.other m) =>
      (d, diagFromErr (readErrMsg d.id m), [getEvent identifier d.application_id])
    | Except.ok accessCACert =>
      ({ d with aud := accessCACert.Aud, public_key := accessCACert.PublicKey },
       [], [getEvent identifier d.application_id])

/-- `resourceCloudflareAccessCACertificateRead`: returns the new local state,
the diagnostics, and the trace (its own `readCall` entry first). -/
def resourceCloudflareAccessCACertificateRead (client : API) (d : ResourceData) :
    ResourceData × Diagnostics × List Event :=
  let c := readCore client d
  (c.1, c.2.1, Event.readCall d :: c.2.2)

/-- `resourceCloudflareAccessCACertificateCreate`: resolve scope, dispatch the
create; on failure return the wrapped error; on success store the returned id
(`d.SetId(accessCACert.ID)`) and tail-call Read. -/
def resourceCloudflareAccessCACertificateCreate (client : API) (d : ResourceData) :
    ResourceData × Diagnostics × List Event :=
  match initIdentifier d with
  | Except.error e => (d, diagFromErr e, [])
  | Except.ok identifier =>
    match clientCreate client identifier d.application_id with
    | Except.error e =>
      (d, diagFromErr (createErrMsg identifier.idType identifier.Value e.message),
       [createEvent identifier d.application_id])
    | Except.ok accessCACert =>
      let d1 : ResourceData := { d with id := accessCACert.ID }
      let r := resourceCloudflareAccessCACertificateRead client d1
      (r.1, r.2.1, createEvent identifier d.application_id :: r.2.2)

/-- `resourceCloudflareAccessCACertificateUpdate`: a literal `return nil`. -/
def resourceCloudflareAccessCACertificateUpdate (_client : API) (d : ResourceData) :
    ResourceData × Diagnostics × List Event :=
  (d, [], [])

/-- `resourceCloudflareAccessCACertificateDelete`: resolve scope, dispatch the
delete; on failure return `diag.FromErr(err)` with the state untouched; on
success `d.SetId("")`. -/
def resourceCloudflareAccessCACertificateDelete (client : API) (d : ResourceData) :
    ResourceData × Diagnostics × List Event :=
  match initIdentifier d with
  | Except.error e => (d, diagFromErr e, [])
  | Except.ok identifier =>
    match clientDelete client identifier d.application_id with
    | some e => (d, diagFromErr e.message, [deleteEvent identifier d.application_id])
    | none => ({ d with id := "" }, [], [deleteEvent identifier d.application_id])

/-- `resourceCloudflareAccessCACertificateImport`: `SplitN` the id into at
most three parts; reject unless there are three parts whose first is
`AccountType` or `ZoneType`; otherwise seed `{account,zone}_id` and the id,
run Read, and collapse any Read diagnostics into the fixed
`importReadFailMsg` error.  Returns (result, final local state, trace). -/
def resourceCloudflareAccessCACertificateImport (client : API) (d : ResourceData) :
    Except String (List ResourceData) × ResourceData × List Event :=
  match stringsSplitN d.id '/' 3 with
  | [identifierType, identifierID, accessCACertificateID] =>
    if identifierType ≠ AccountType ∧ identifierType ≠ ZoneType then
      (Except.error (importFormatErrMsg d.id), d, [])
    else
      let d1 : ResourceData :=
        { setStringField (identifierType ++ "_id") identifierID d with
          id := accessCACertificateID }
      let r := resourceCloudflareAccessCACertificateRead client d1
      if r.2.1 = [] then (Except.ok [r.1], r.1, r.2.2)
      else (Except.error importReadFailMsg, r.1, r.2.2)
  | _ => (Except.error (importFormatErrMsg d.id), d, [])

/-! ### Concrete fixtures used to exercise the lifecycle functions -/

/-- A sample remote entity. -/
def certExample : AccessCACertificate :=
  { ID := "cert789", Aud := "aud-1", PublicKey := "pk-1" }

/-- A client on which every remote operation succeeds. -/
def okClient : API :=
  { CreateAccessCACertificate := fun _ _ => Except.ok certExample
    CreateZoneLevelAccessCACertificate := fun _ _ => Except.ok certExample
    AccessCACertificate := fun _ _ => Except.ok certExample
    ZoneLevelAccessCACertificate := fun _ _ => Except.ok certExample
    DeleteAccessCACertificate := fun _ _ => none
    DeleteZoneLevelAccessCACertificate := fun _ _ => none }

/-- A client whose get operations report the resource as gone. -/
def notFoundClient : API :=
  { CreateAccessCACertificate := fun _ _ => Except.ok certExample
    CreateZoneLevelAccessCACertificate := fun _ _ => Except.ok certExample
    AccessCACertificate := fun _ _ => Except.error (ApiError.notFound "not found")
    ZoneLevelAccessCACertificate := fun _ _ => Except.error (ApiError.notFound "not found")
    DeleteAccessCACertificate := fun _ _ => none
    DeleteZoneLevelAccessCACertificate := fun _ _ => none }

/-- A client whose creates succeed but whose gets and deletes fail with a
generic (non-Not-Found) error. -/
def readFailClient : API :=
  { CreateAccessCACertificate := fun _ _ => Except.ok certExample
    CreateZoneLevelAccessCACertificate := fun _ _ => Except.ok certExample
    AccessCACertificate := fun _ _ => Except.error (ApiError.other "boom")
    ZoneLevelAccessCACertificate := fun _ _ => Except.error (ApiError.other "boom")
    DeleteAccessCACertificate := fun _ _ => some (ApiError.other "boom")
    DeleteZoneLevelAccessCACertificate := fun _ _ => some (ApiError.other "boom") }

/-- A client on which every remote operation fails with a generic error. -/
def failClient : API :=
  { CreateAccessCACertificate := fun _ _ => Except.error (ApiError.other "boom")
    CreateZoneLevelAccessCACertificate := fun _ _ => Except.error (ApiError.other "boom")
    AccessCACertificate := fun _ _ => Except.error (ApiError.other "boom")
    ZoneLevelAccessCACertificate := fun _ _ => Except.error (ApiError.other "boom")
    DeleteAccessCACertificate := fun _ _ => some (ApiError.other "boom")
    DeleteZoneLevelAccessCACertificate := fun _ _ => some (ApiError.other "boom") }

/-- An account-scoped local state with an existing identifier. -/
def dAccount : ResourceData :=
  { id := "cert0", application_id := "app1", account_id := "acc123", zone_id := "",
    aud := "aud0", public_key := "pk0" }

/-- The scope identifier `dAccount` resolves to. -/
def accIdent : AccessIdentifier := { idType := AccountType, Value := "acc123" }

/-- A fresh state carrying a well-formed composite import id. -/
def dImportOk : ResourceData :=
  { id := "account/acc123/cert789", application_id := "app1", account_id := "",
    zone_id := "", aud := "", public_key := "" }

/-- A fresh state carrying an import id with an empty second segment. -/
def dEmptySeg : ResourceData :=
  { id := "account//x", application_id := "app1", account_id := "", zone_id := "",
    aud := "", public_key := "" }

/-- A fresh state carrying an import id with no separator at all. -/
def dBadId : ResourceData :=
  { id := "nonsense", application_id := "app1", account_id := "", zone_id := "",
    aud := "", public_key := "" }

/-! ### Trace bookkeeping lemmas -/

/-- A `getEvent` entry is never a `readCall`. -/
theorem countReadCalls_cons_getEvent (identifier : AccessIdentifier) (appID : String)
    (es : List Event) :
    countReadCalls (getEvent identifier appID :: es) = countReadCalls es := by
  unfold getEvent
  split <;> rfl

/-- A `createEvent` entry is never a `readCall`. -/
theorem countReadCalls_cons_createEvent (identifier : AccessIdentifier) (appID : String)
    (es : List Event) :
    countReadCalls (createEvent identifier appID :: es) = countReadCalls es := by
  unfold createEvent
  split <;> rfl

/-- The trace of `readCore` contains no `readCall` entry. -/
theorem countReadCalls_readCore (client : API) (d : ResourceData) :
    countReadCalls (readCore client d).2.2 = 0 := by
  unfold readCore
  split
  · rfl
  · split <;> simp [countReadCalls_cons_getEvent, countReadCalls]

/-- The Read hook runs itself exactly once: its trace has one `readCall`. -/
theorem countReadCalls_read (client : API) (d : ResourceData) :
    countReadCalls (resourceCloudflareAccessCACertificateRead client d).2.2 = 1 := by
  show countReadCalls (Event.readCall d :: (readCore client d).2.2) = 1
  show countReadCalls (readCore client d).2.2 + 1 = 1
  rw [countReadCalls_readCore]

/-- The first (and only) entry into the Read hook sees exactly the state it
was handed. -/
theorem firstReadState_read (client : API) (d : ResourceData) :
    firstReadState? (resourceCloudflareAccessCACertificateRead client d).2.2 = some d := rfl

/-! ### Claim theorems -/

/-- Claim C6: for every input state and every client value, Update issues no
remote call (empty trace), mutates no local state, and returns no
diagnostics. -/
theorem C6_update_noop (client : API) (d : ResourceData) :
    resourceCloudflareAccessCACertificateUpdate client d = (d, [], []) := rfl

/-- Claim C2: when the scope resolves and the remote get reports Not-Found,
Read clears the local identifier and returns no diagnostics, and repeating
Read on the resulting state yields the same empty-identifier, no-diagnostic
result. -/
theorem C2_read_notFound_idempotent (client : API) (d : ResourceData)
    (identifier : AccessIdentifier) (m : String)
    (hid : initIdentifier d = Except.ok identifier)
    (hget : clientGet client identifier d.application_id =
      Except.error (ApiError.notFound m)) :
    (resourceCloudflareAccessCACertificateRead client d).1 = { d with id := "" } ∧
    (resourceCloudflareAccessCACertificateRead client d).2.1 = [] ∧
    (resourceCloudflareAccessCACertificateRead client
      (resourceCloudflareAccessCACertificateRead client d).1).1 = { d with id := "" } ∧
    (resourceCloudflareAccessCACertificateRead client
      (resourceCloudflareAccessCACertificateRead client d).1).2.1 = [] := by
  have h1 : readCore client d =
      ({ d with id := "" }, [], [getEvent identifier d.application_id]) := by
    simp only [readCore, hid, hget]
  have hid2 : initIdentifier { d with id := "" } = Except.ok identifier := hid
  have hget2 : clientGet client identifier
      ({ d with id := "" } : ResourceData).application_id =
      Except.error (ApiError.notFound m) := hget
  have h2 : readCore client { d with id := "" } =
      ({ d with id := "" }, [], [getEvent identifier d.application_id]) := by
    simp only [readCore, hid2, hget2]
  have hread : resourceCloudflareAccessCACertificateRead client d =
      ({ d with id := "" }, [], [Event.readCall d, getEvent identifier d.application_id]) := by
    unfold resourceCloudflareAccessCACertificateRead
    rw [h1]
  have hread2 : resourceCloudflareAccessCACertificateRead client { d with id := "" } =
      ({ d with id := "" }, [],
       [Event.readCall { d with id := "" }, getEvent identifier d.application_id]) := by
    unfold resourceCloudflareAccessCACertificateRead
    rw [h2]
  simp [hread, hread2]

/-- Claim C7: when the remote get succeeds, Read overwrites exactly `aud` and
`public_key` from the fetched entity and returns no diagnostics;
`application_id`, the identifier, and both scope container fields are left
unchanged. -/
theorem C7_read_success_frame (client : API) (d : ResourceData)
    (identifier : AccessIdentifier) (cert : AccessCACertificate)
    (hid : initIdentifier d = Except.ok identifier)
    (hget : clientGet client identifier d.application_id = Except.ok cert) :
    (resourceCloudflareAccessCACertificateRead client d).2.1 = [] ∧
    (resourceCloudflareAccessCACertificateRead client d).1.aud = cert.Aud ∧
    (resourceCloudflareAccessCACertificateRead client d).1.public_key = cert.PublicKey ∧
    (resourceCloudflareAccessCACertificateRead client d).1.application_id = d.application_id ∧
    (resourceCloudflareAccessCACertificateRead client d).1.id = d.id ∧
    (resourceCloudflareAccessCACertificateRead client d).1.account_id = d.account_id ∧
    (resourceCloudflareAccessCACertificateRead client d).1.zone_id = d.zone_id := by
  have h1 : readCore client d =
      ({ d with aud := cert.Aud, public_key := cert.PublicKey }, [],
       [getEvent identifier d.application_id]) := by
    simp only [readCore, hid, hget]
  have hread : resourceCloudflareAccessCACertificateRead client d =
      ({ d with aud := cert.Aud, public_key := cert.PublicKey }, [],
       [Event.readCall d, getEvent identifier d.application_id]) := by
    unfold resourceCloudflareAccessCACertificateRead
    rw [h1]
  simp [hread]

/-- Claim C10: on the Not-Found branch of Read, the only state change is the
cleared identifier; `aud`, `public_key`, `application_id` and both scope
container fields keep their prior values. -/
theorem C10_read_notFound_frame (client : API) (d : ResourceData)
    (identifier : AccessIdentifier) (m : String)
    (hid : initIdentifier d = Except.ok identifier)
    (hget : clientGet client identifier d.application_id =
      Except.error (ApiError.notFound m)) :
    (resourceCloudflareAccessCACertificateRead client d).1.id = "" ∧
    (resourceCloudflareAccessCACertificateRead client d).1.aud = d.aud ∧
    (resourceCloudflareAccessCACertificateRead client d).1.public_key = d.public_key ∧
    (resourceCloudflareAccessCACertificateRead client d).1.application_id = d.application_id ∧
    (resourceCloudflareAccessCACertificateRead client d).1.account_id = d.account_id ∧
    (resourceCloudflareAccessCACertificateRead client d).1.zone_id = d.zone_id := by
  have h1 : readCore client d =
      ({ d with id := "" }, [], [getEvent identifier d.application_id]) := by
    simp only [readCore, hid, hget]
  have hread : resourceCloudflareAccessCACertificateRead client d =
      ({ d with id := "" }, [], [Event.readCall d, getEvent identifier d.application_id]) := by
    unfold resourceCloudflareAccessCACertificateRead
    rw [h1]
  simp [hread]

/-- Claim C5: with the scope resolved, a successful remote delete makes
Delete clear the identifier and return no diagnostics, while a failed remote
delete leaves the whole state unchanged and returns one fatal diagnostic
carrying the raw error text. -/
theorem C5_delete_contract (client : API) (d : ResourceData)
    (identifier : AccessIdentifier)
    (hid : initIdentifier d = Except.ok identifier) :
    (clientDelete client identifier d.application_id = none →
      resourceCloudflareAccessCACertificateDelete client d =
        ({ d with id := "" }, [], [deleteEvent identifier d.application_id])) ∧
    (∀ e, clientDelete client identifier d.application_id = some e →
      resourceCloudflareAccessCACertificateDelete client d =
        (d, diagFromErr e.message, [deleteEvent identifier d.application_id])) := by
  constructor
  · intro h
    simp only [resourceCloudflareAccessCACertificateDelete, hid, h]
  · intro e h
    simp only [resourceCloudflareAccessCACertificateDelete, hid, h]

/-- `firstReadState?` skips a `createEvent` entry. -/
theorem firstReadState_cons_createEvent (identifier : AccessIdentifier) (appID : String)
    (es : List Event) :
    firstReadState? (createEvent identifier appID :: es) = firstReadState? es := by
  unfold createEvent
  split <;> rfl

/-- Claim C4: with the scope resolved, a successful remote create makes
Create store the returned identifier and run Read exactly once on the state
carrying that identifier; a failed remote create runs no Read and fails with
the wrapped error naming the scope kind and scope value. -/
theorem C4_create_contract (client : API) (d : ResourceData)
    (identifier : AccessIdentifier)
    (hid : initIdentifier d = Except.ok identifier) :
    (∀ cert, clientCreate client identifier d.application_id = Except.ok cert →
      countReadCalls (resourceCloudflareAccessCACertificateCreate client d).2.2 = 1 ∧
      firstReadState? (resourceCloudflareAccessCACertificateCreate client d).2.2 =
        some { d with id := cert.ID }) ∧
    (∀ e, clientCreate client identifier d.application_id = Except.error e →
      resourceCloudflareAccessCACertificateCreate client d =
        (d, diagFromErr (createErrMsg identifier.idType identifier.Value e.message),
         [createEvent identifier d.application_id]) ∧
      countReadCalls (resourceCloudflareAccessCACertificateCreate client d).2.2 = 0) := by
  constructor
  · intro cert hcr
    have hc : resourceCloudflareAccessCACertificateCreate client d =
        ((resourceCloudflareAccessCACertificateRead client { d with id := cert.ID }).1,
         (resourceCloudflareAccessCACertificateRead client { d with id := cert.ID }).2.1,
         createEvent identifier d.application_id ::
           (resourceCloudflareAccessCACertificateRead client { d with id := cert.ID }).2.2) := by
      simp only [resourceCloudflareAccessCACertificateCreate, hid, hcr]
    rw [hc]
    constructor
    · show countReadCalls (createEvent identifier d.application_id ::
        (resourceCloudflareAccessCACertificateRead client { d with id := cert.ID }).2.2) = 1
      rw [countReadCalls_cons_createEvent, countReadCalls_read]
    · show firstReadState? (createEvent identifier d.application_id ::
        (resourceCloudflareAccessCACertificateRead client { d with id := cert.ID }).2.2) =
          some { d with id := cert.ID }
      rw [firstReadState_cons_createEvent, firstReadState_read]
  · intro e hcr
    have hc : resourceCloudflareAccessCACertificateCreate client d =
        (d, diagFromErr (createErrMsg identifier.idType identifier.Value e.message),
         [createEvent identifier d.application_id]) := by
      simp only [resourceCloudflareAccessCACertificateCreate, hid, hcr]
    refine ⟨hc, ?_⟩
    rw [hc]
    show countReadCalls [createEvent identifier d.application_id] = 0
    rw [countReadCalls_cons_createEvent]
    rfl

/-- Claim C9: when the remote create succeeds but the Read at the end of
Create fails with a non-Not-Found error, Create returns that Read's fatal
diagnostic and the local identifier remains the one the remote create
returned. -/
theorem C9_create_read_failure_keeps_id (client : API) (d : ResourceData)
    (identifier : AccessIdentifier) (cert : AccessCACertificate) (m : String)
    (hid : initIdentifier d = Except.ok identifier)
    (hcr : clientCreate client identifier d.application_id = Except.ok cert)
    (hget : clientGet client identifier d.application_id =
      Except.error (ApiError.other m)) :
    (resourceCloudflareAccessCACertificateCreate client d).1 = { d with id := cert.ID } ∧
    (resourceCloudflareAccessCACertificateCreate client d).2.1 =
      diagFromErr (readErrMsg cert.ID m) := by
  have hid1 : initIdentifier { d with id := cert.ID } = Except.ok identifier := hid
  have hget1 : clientGet client identifier
      ({ d with id := cert.ID } : ResourceData).application_id =
      Except.error (ApiError.other m) := hget
  have h1 : readCore client { d with id := cert.ID } =
      ({ d with id := cert.ID }, diagFromErr (readErrMsg cert.ID m),
       [getEvent identifier d.application_id]) := by
    simp only [readCore, hid1, hget1]
  have hread : resourceCloudflareAccessCACertificateRead client { d with id := cert.ID } =
      ({ d with id := cert.ID }, diagFromErr (readErrMsg cert.ID m),
       [Event.readCall { d with id := cert.ID }, getEvent identifier d.application_id]) := by
    unfold resourceCloudflareAccessCACertificateRead
    rw [h1]
  have hc : resourceCloudflareAccessCACertificateCreate client d =
      ((resourceCloudflareAccessCACertificateRead client { d with id := cert.ID }).1,
       (resourceCloudflareAccessCACertificateRead client { d with id := cert.ID }).2.1,
       createEvent identifier d.application_id ::
         (resourceCloudflareAccessCACertificateRead client { d with id := cert.ID }).2.2) := by
    simp only [resourceCloudflareAccessCACertificateCreate, hid, hcr]
  simp [hc, hread]

/-- On an id whose `SplitN` parts pass the validation, Import reduces to:
seed the scope field and the identifier, run Read, and post-process its
diagnostics. -/
theorem import_valid_reduces (client : API) (d : ResourceData) (k A C : String)
    (hs : stringsSplitN d.id '/' 3 = [k, A, C])
    (hk : k = AccountType ∨ k = ZoneType) :
    resourceCloudflareAccessCACertificateImport client d =
      (if (resourceCloudflareAccessCACertificateRead client
            ({ setStringField (k ++ "_id") A d with id := C } : ResourceData)).2.1 = [] then
        (Except.ok [(resourceCloudflareAccessCACertificateRead client
            ({ setStringField (k ++ "_id") A d with id := C } : ResourceData)).1],
         (resourceCloudflareAccessCACertificateRead client
            ({ setStringField (k ++ "_id") A d with id := C } : ResourceData)).1,
         (resourceCloudflareAccessCACertificateRead client
            ({ setStringField (k ++ "_id") A d with id := C } : ResourceData)).2.2)
      else
        (Except.error importReadFailMsg,
         (resourceCloudflareAccessCACertificateRead client
            ({ setStringField (k ++ "_id") A d with id := C } : ResourceData)).1,
         (resourceCloudflareAccessCACertificateRead client
            ({ setStringField (k ++ "_id") A d with id := C } : ResourceData)).2.2)) := by
  have hnot : ¬(k ≠ AccountType ∧ k ≠ ZoneType) := by
    rcases hk with rfl | rfl <;> simp
  simp only [resourceCloudflareAccessCACertificateImport, hs, if_neg hnot]

/-- Claim C1 (amended): import ids are rejected, with the descriptive format
error and with no state mutation and no remote call, exactly when `SplitN`
with limit 3 does not yield three parts or the first part is neither
`"account"` nor `"zone"`. -/
theorem C1_import_invalid_rejected (client : API) (d : ResourceData)
    (h : validImportId d.id = false) :
    resourceCloudflareAccessCACertificateImport client d =
      (Except.error (importFormatErrMsg d.id), d, []) := by
  unfold validImportId at h
  unfold resourceCloudflareAccessCACertificateImport
  split
  · rename_i identifierType identifierID accessCACertificateID heq
    rw [heq] at h
    simp only [Bool.or_eq_false_iff, beq_eq_false_iff_ne, ne_eq] at h
    rw [if_pos ⟨h.1, h.2⟩]
  · rfl

/-- Claim C1 counterexample: the id `"account//x"` does not split into three
non-empty segments (its second segment is empty), yet Import does not fail
with the format error and does mutate local state: it seeds the empty
`account_id` and the identifier `"x"`, runs Read (whose scope resolution
fails), and surfaces the generic read-failure error instead. -/
theorem C1_counterexample :
    specValidImportId "account//x" = false ∧
    stringSplitFull "account//x" '/' = ["account", "", "x"] ∧
    (resourceCloudflareAccessCACertificateImport okClient dEmptySeg).1 =
      Except.error importReadFailMsg ∧
    importReadFailMsg ≠ importFormatErrMsg "account//x" ∧
    (resourceCloudflareAccessCACertificateImport okClient dEmptySeg).2.1 ≠ dEmptySeg := by
  decide

/-- Claim C3: on a valid composite id `k/A/C` (k the scope kind), Import
seeds the matching scope container field with `A` and the identifier with
`C`, leaves the other scope field untouched, and then runs Read exactly once
on exactly that seeded state. -/
theorem C3_import_valid_seeds_one_read (client : API) (d : ResourceData) (k A C : String)
    (hs : stringsSplitN d.id '/' 3 = [k, A, C])
    (hk : k = AccountType ∨ k = ZoneType) :
    countReadCalls (resourceCloudflareAccessCACertificateImport client d).2.2 = 1 ∧
    firstReadState? (resourceCloudflareAccessCACertificateImport client d).2.2 =
      some { setStringField (k ++ "_id") A d with id := C } ∧
    ({ setStringField (k ++ "_id") A d with id := C } : ResourceData).id = C ∧
    (k = AccountType →
      ({ setStringField (k ++ "_id") A d with id := C } : ResourceData).account_id = A ∧
      ({ setStringField (k ++ "_id") A d with id := C } : ResourceData).zone_id = d.zone_id) ∧
    (k = ZoneType →
      ({ setStringField (k ++ "_id") A d with id := C } : ResourceData).zone_id = A ∧
      ({ setStringField (k ++ "_id") A d with id := C } : ResourceData).account_id = d.account_id) := by
  have himp := import_valid_reduces client d k A C hs hk
  have htr : (resourceCloudflareAccessCACertificateImport client d).2.2 =
      (resourceCloudflareAccessCACertificateRead client
        ({ setStringField (k ++ "_id") A d with id := C } : ResourceData)).2.2 := by
    rw [himp]
    split <;> rfl
  refine ⟨?_, ?_, rfl, ?_, ?_⟩
  · rw [htr, countReadCalls_read]
  · rw [htr, firstReadState_read]
  · intro hkk
    subst hkk
    constructor <;> simp [setStringField, AccountType, ZoneType]
  · intro hkk
    subst hkk
    constructor <;> simp [setStringField, AccountType, ZoneType]

/-- Claim C8: on a well-formed import id, if the Read triggered by Import
reports any diagnostic, Import fails with exactly the fixed generic
read-failure message, which is a constant and so carries none of the
underlying diagnostic's detail. -/
theorem C8_import_read_failure_generic (client : API) (d : ResourceData) (k A C : String)
    (hs : stringsSplitN d.id '/' 3 = [k, A, C])
    (hk : k = AccountType ∨ k = ZoneType)
    (hr : (resourceCloudflareAccessCACertificateRead client
      ({ setStringField (k ++ "_id") A d with id := C } : ResourceData)).2.1 ≠ []) :
    (resourceCloudflareAccessCACertificateImport client d).1 =
      Except.error importReadFailMsg ∧
    importReadFailMsg = "failed to read Access CA Certificate state" := by
  have himp := import_valid_reduces client d k A C hs hk
  refine ⟨?_, rfl⟩
  rw [himp, if_neg hr]

/-! ### Witnesses: the theorems above applied at concrete inputs -/

/-- Witness for C1 (amended theorem): the separator-free id `"nonsense"` is
rejected with the format error and the state and trace are untouched. -/
theorem C1_witness :
    validImportId "nonsense" = false ∧
    resourceCloudflareAccessCACertificateImport okClient dBadId =
      (Except.error (importFormatErrMsg "nonsense"), dBadId, []) :=
  ⟨by decide, C1_import_invalid_rejected okClient dBadId (by decide)⟩

/-- Witness for C2: on `dAccount` with a Not-Found get, Read clears the id,
returns no diagnostics, and repeating Read gives the same result. -/
theorem C2_witness :
    (resourceCloudflareAccessCACertificateRead notFoundClient dAccount).1 =
      { dAccount with id := "" } ∧
    (resourceCloudflareAccessCACertificateRead notFoundClient dAccount).2.1 = [] ∧
    (resourceCloudflareAccessCACertificateRead notFoundClient
      (resourceCloudflareAccessCACertificateRead notFoundClient dAccount).1).1 =
      { dAccount with id := "" } ∧
    (resourceCloudflareAccessCACertificateRead notFoundClient
      (resourceCloudflareAccessCACertificateRead notFoundClient dAccount).1).2.1 = [] :=
  C2_read_notFound_idempotent notFoundClient dAccount accIdent "not found"
    (by decide) (by decide)

/-- Witness for C3: importing `"account/acc123/cert789"` runs Read exactly
once on the state seeded with `account_id = "acc123"` and id `"cert789"`. -/
theorem C3_witness :
    countReadCalls (resourceCloudflareAccessCACertificateImport okClient dImportOk).2.2 = 1 ∧
    firstReadState? (resourceCloudflareAccessCACertificateImport okClient dImportOk).2.2 =
      some { setStringField ("account" ++ "_id") "acc123" dImportOk with id := "cert789" } ∧
    ({ setStringField ("account" ++ "_id") "acc123" dImportOk with
        id := "cert789" } : ResourceData).id = "cert789" ∧
    ("account" = AccountType →
      ({ setStringField ("account" ++ "_id") "acc123" dImportOk with
          id := "cert789" } : ResourceData).account_id = "acc123" ∧
      ({ setStringField ("account" ++ "_id") "acc123" dImportOk with
          id := "cert789" } : ResourceData).zone_id = dImportOk.zone_id) ∧
    ("account" = ZoneType →
      ({ setStringField ("account" ++ "_id") "acc123" dImportOk with
          id := "cert789" } : ResourceData).zone_id = "acc123" ∧
      ({ setStringField ("account" ++ "_id") "acc123" dImportOk with
          id := "cert789" } : ResourceData).account_id = dImportOk.account_id) :=
  C3_import_valid_seeds_one_read okClient dImportOk "account" "acc123" "cert789"
    (by decide) (Or.inl rfl)

/-- Witness for C4: on `dAccount`, a successful create runs Read once on the
state carrying the returned id, and a failed create yields the wrapped error
and no Read. -/
theorem C4_witness :
    (countReadCalls (resourceCloudflareAccessCACertificateCreate okClient dAccount).2.2 = 1 ∧
      firstReadState? (resourceCloudflareAccessCACertificateCreate okClient dAccount).2.2 =
        some { dAccount with id := certExample.ID }) ∧
    (resourceCloudflareAccessCACertificateCreate failClient dAccount =
        (dAccount,
         diagFromErr (createErrMsg accIdent.idType accIdent.Value
           (ApiError.other "boom").message),
         [createEvent accIdent dAccount.application_id]) ∧
      countReadCalls (resourceCloudflareAccessCACertificateCreate failClient dAccount).2.2 = 0) :=
  ⟨(C4_create_contract okClient dAccount accIdent (by decide)).1 certExample (by decide),
   (C4_create_contract failClient dAccount accIdent (by decide)).2
     (ApiError.other "boom") (by decide)⟩

/-- Witness for C5: on `dAccount`, a successful delete clears the id with no
diagnostics; a failed delete leaves the state unchanged and returns the raw
error as a fatal diagnostic. -/
theorem C5_witness :
    resourceCloudflareAccessCACertificateDelete okClient dAccount =
      ({ dAccount with id := "" }, [], [deleteEvent accIdent dAccount.application_id]) ∧
    resourceCloudflareAccessCACertificateDelete failClient dAccount =
      (dAccount, diagFromErr (ApiError.other "boom").message,
       [deleteEvent accIdent dAccount.application_id]) :=
  ⟨(C5_delete_contract okClient dAccount accIdent (by decide)).1 (by decide),
   (C5_delete_contract failClient dAccount accIdent (by decide)).2
     (ApiError.other "boom") (by decide)⟩

/-- Witness for C7: on `dAccount` with a successful get, only `aud` and
`public_key` change. -/
theorem C7_witness :
    (resourceCloudflareAccessCACertificateRead okClient dAccount).2.1 = [] ∧
    (resourceCloudflareAccessCACertificateRead okClient dAccount).1.aud = certExample.Aud ∧
    (resourceCloudflareAccessCACertificateRead okClient dAccount).1.public_key =
      certExample.PublicKey ∧
    (resourceCloudflareAccessCACertificateRead okClient dAccount).1.application_id =
      dAccount.application_id ∧
    (resourceCloudflareAccessCACertificateRead okClient dAccount).1.id = dAccount.id ∧
    (resourceCloudflareAccessCACertificateRead okClient dAccount).1.account_id =
      dAccount.account_id ∧
    (resourceCloudflareAccessCACertificateRead okClient dAccount).1.zone_id =
      dAccount.zone_id :=
  C7_read_success_frame okClient dAccount accIdent certExample (by decide) (by decide)

/-- Witness for C8: importing `"account/acc123/cert789"` against a client
whose get fails generically makes Import fail with exactly the fixed
read-failure message. -/
theorem C8_witness :
    (resourceCloudflareAccessCACertificateImport readFailClient dImportOk).1 =
      Except.error importReadFailMsg ∧
    importReadFailMsg = "failed to read Access CA Certificate state" :=
  C8_import_read_failure_generic readFailClient dImportOk "account" "acc123" "cert789"
    (by decide) (Or.inl rfl) (by decide)

/-- Witness for C9: on `dAccount` with create succeeding and the follow-up
get failing generically, Create keeps the created id and surfaces the Read
diagnostic. -/
theorem C9_witness :
    (resourceCloudflareAccessCACertificateCreate readFailClient dAccount).1 =
      { dAccount with id := certExample.ID } ∧
    (resourceCloudflareAccessCACertificateCreate readFailClient dAccount).2.1 =
      diagFromErr (readErrMsg certExample.ID "boom") :=
  C9_create_read_failure_keeps_id readFailClient dAccount accIdent certExample "boom"
    (by decide) (by decide) (by decide)

/-- Witness for C10: on `dAccount` with a Not-Found get, only the id is
cleared. -/
theorem C10_witness :
    (resourceCloudflareAccessCACertificateRead notFoundClient dAccount).1.id = "" ∧
    (resourceCloudflareAccessCACertificateRead notFoundClient dAccount).1.aud = dAccount.aud ∧
    (resourceCloudflareAccessCACertificateRead notFoundClient dAccount).1.public_key =
      dAccount.public_key ∧
    (resourceCloudflareAccessCACertificateRead notFoundClient dAccount).1.application_id =
      dAccount.application_id ∧
    (resourceCloudflareAccessCACertificateRead notFoundClient dAccount).1.account_id =
      dAccount.account_id ∧
    (resourceCloudflareAccessCACertificateRead notFoundClient dAccount).1.zone_id =
      dAccount.zone_id :=
  C10_read_notFound_frame notFoundClient dAccount accIdent "not found"
    (by decide) (by decide)

end AccessCACert
